import Mathlib

/-!
Verification of the mcp_copilot routing-and-dispatch gateway
(`baseline/mcp_copilot`): the tool-visibility registry
(`tool_registry.py`), the server-descriptor validation (`schemas.py`)
and the `Router` (`router.py`).

The Python code is shallowly embedded: dictionaries become association
lists over `String` keys, Python `set`s of tool names become
duplicate-free lists with boolean membership, fallible constructors
become `Except String`, and the per-call connection machinery of
`Router.call_tool` is embedded as a pure function that also returns the
ordered trace of lock/connection events the call performs.  The external
collaborators (`ToolMatcher`, `MCPConnection`) are parameters of the
embedded functions: only their observable behaviour at the gateway
boundary is modelled.
-/

/-- Python truthiness of an optional string (`os.getenv` result or an
optional pydantic field): `None` and `""` are falsy, every other string
is truthy. -/
def truthy : Option String → Bool
  | none => false
  | some s => !s.isEmpty

/-- Lookup in a Python `dict[str, α]` modelled as an association list
(`d.get(key)` / `key in d`). -/
def lookupStr {α : Type} : List (String × α) → String → Option α
  | [], _ => none
  | (k, v) :: rest, key => if k = key then some v else lookupStr rest key

/-- Assignment `d[key] = val` on a Python `dict[str, α]`: replaces the
entry if the key is present, appends it otherwise (insertion order kept,
as in CPython). -/
def insertStr {α : Type} : List (String × α) → String → α → List (String × α)
  | [], key, val => [(key, val)]
  | (k, v) :: rest, key, val =>
      if k = key then (key, val) :: rest else (k, v) :: insertStr rest key val

/-- Membership `t in s` for a Python `set[str]` modelled as a list. -/
def memb : List String → String → Bool
  | [], _ => false
  | x :: xs, t => if x = t then true else memb xs t

/-- A Python `set[str]` of tool names. -/
abbrev ToolSet := List String

/-- `s.add(t)` on a Python set: no-op if already present. -/
def ToolSet.add (s : ToolSet) (t : String) : ToolSet :=
  if memb s t then s else s ++ [t]

/-- `s.discard(t)` on a Python set: removes `t` if present, no-op
otherwise. -/
def ToolSet.discard : ToolSet → String → ToolSet
  | [], _ => []
  | x :: xs, t => if x = t then ToolSet.discard xs t else x :: ToolSet.discard xs t

/-- `set(names)` built from a list of names (duplicates collapse). -/
def setFromList (names : List String) : ToolSet :=
  names.foldl ToolSet.add []

/-- `ToolRegistry._registry : dict[str, set[str]]` — the per-server
visibility sets. -/
abbrev RegistryMap := List (String × ToolSet)

/-- `types.Tool`: only the `name` field is read by this code base. -/
structure Tool where
  name : String
deriving DecidableEq, Repr

/-- `ServerConfig` (schemas.py): connection parameters of one server. -/
structure ServerConfig where
  command : Option String := none
  args : List String := []
  env : List (String × String) := []
  url : Option String := none
  headers : List (String × String) := []
deriving DecidableEq, Repr

/-- `ServerConfig.check_command_or_url` (schemas.py lines 14-18), the
pydantic `model_validator`: raises iff both `command` and `url` are
falsy (absent or the empty string). -/
def check_command_or_url (c : ServerConfig) : Except String ServerConfig :=
  if !truthy c.command && !truthy c.url then
    Except.error "Either 'command' or 'url' must be provided"
  else
    Except.ok c

/-- `Server` (schemas.py): metadata of one remote MCP server. -/
structure Server where
  name : String
  description : Option String := none
  config : ServerConfig
  tools : Option (List Tool) := none
deriving DecidableEq, Repr

/-- `ToolRegistry.is_exposed`: `tool_name in self._registry.get(server_name, set())`. -/
def is_exposed (r : RegistryMap) (server_name tool_name : String) : Bool :=
  memb ((lookupStr r server_name).getD []) tool_name

/-- `ToolRegistry.expose_tool`:
`self._registry.setdefault(server_name, set()).add(tool_name)`. -/
def expose_tool (r : RegistryMap) (server_name tool_name : String) : RegistryMap :=
  insertStr r server_name (ToolSet.add ((lookupStr r server_name).getD []) tool_name)

/-- `ToolRegistry.hide_tool`: discard `tool_name` from the server's set
when the server has an entry; no-op otherwise. -/
def hide_tool (r : RegistryMap) (server_name tool_name : String) : RegistryMap :=
  match lookupStr r server_name with
  | some s => insertStr r server_name (ToolSet.discard s tool_name)
  | none => r

/-- `ToolRegistry.list_exposed`: `list(self._registry.get(server_name, set()))`. -/
def list_exposed (r : RegistryMap) (server_name : String) : List String :=
  (lookupStr r server_name).getD []

/-- `ToolRegistry.initialize_from_servers`: for each `(name, server)` in
`servers`, expose the first `K = 3` tool names of `server.tools`
(`getattr(server, "tools", None) or []`), storing
`self._registry[name] = set(tool_names)`.  Entries of servers not in
the argument are left as they are. -/
def initialize_from_servers : RegistryMap → List (String × Server) → RegistryMap
  | r, [] => r
  | r, (name, server) :: rest =>
      initialize_from_servers
        (insertStr r name (setFromList (((server.tools.getD []).take 3).map Tool.name)))
        rest

theorem memb_append_single (s : List String) (t : String) : memb (s ++ [t]) t = true := by
  induction s with
  | nil => simp [memb]
  | cons x xs ih => by_cases h : x = t <;> simp [memb, h, ih]

theorem memb_append_single_ne (s : List String) (t t' : String) (h : t' ≠ t) :
    memb (s ++ [t]) t' = memb s t' := by
  induction s with
  | nil => simp [memb, Ne.symm h]
  | cons x xs ih => by_cases h1 : x = t' <;> simp [memb, h1, ih]

theorem memb_add_self (s : ToolSet) (t : String) : memb (ToolSet.add s t) t = true := by
  by_cases h : memb s t <;> simp [ToolSet.add, h, memb_append_single]

theorem memb_add_ne (s : ToolSet) (t t' : String) (h : t' ≠ t) :
    memb (ToolSet.add s t) t' = memb s t' := by
  by_cases hm : memb s t <;> simp [ToolSet.add, hm, memb_append_single_ne s t t' h]

theorem memb_discard_self (s : ToolSet) (t : String) :
    memb (ToolSet.discard s t) t = false := by
  induction s with
  | nil => simp [ToolSet.discard, memb]
  | cons x xs ih => by_cases h : x = t <;> simp [ToolSet.discard, memb, h, ih]

theorem memb_discard_ne (s : ToolSet) (t t' : String) (h : t' ≠ t) :
    memb (ToolSet.discard s t) t' = memb s t' := by
  induction s with
  | nil => simp [ToolSet.discard]
  | cons x xs ih =>
      by_cases h1 : x = t
      · subst h1
        simp [ToolSet.discard, memb, Ne.symm h, ih]
      · by_cases h2 : x = t' <;> simp [ToolSet.discard, memb, h1, h2, ih, h]

theorem discard_of_not_memb (s : ToolSet) (t : String) (h : memb s t = false) :
    ToolSet.discard s t = s := by
  induction s with
  | nil => rfl
  | cons x xs ih =>
      by_cases h1 : x = t
      · simp [memb, h1] at h
      · have h2 : memb xs t = false := by simpa [memb, h1] using h
        simp [ToolSet.discard, h1, ih h2]

theorem lookupStr_insertStr_self {α : Type} (m : List (String × α)) (k : String) (v : α) :
    lookupStr (insertStr m k v) k = some v := by
  induction m with
  | nil => simp [insertStr, lookupStr]
  | cons p rest ih =>
      obtain ⟨a, b⟩ := p
      by_cases h : a = k <;> simp [insertStr, lookupStr, h, ih]

theorem lookupStr_insertStr_ne {α : Type} (m : List (String × α)) (k k' : String) (v : α)
    (h : k' ≠ k) : lookupStr (insertStr m k v) k' = lookupStr m k' := by
  induction m with
  | nil => simp [insertStr, lookupStr, Ne.symm h]
  | cons p rest ih =>
      obtain ⟨a, b⟩ := p
      by_cases h1 : a = k
      · subst h1
        simp [insertStr, lookupStr, Ne.symm h]
      · by_cases h2 : a = k' <;> simp [insertStr, lookupStr, h1, h2, ih, h]

theorem insertStr_lookup_self {α : Type} (m : List (String × α)) (k : String) (v : α)
    (h : lookupStr m k = some v) : insertStr m k v = m := by
  induction m with
  | nil => simp [lookupStr] at h
  | cons p rest ih =>
      obtain ⟨a, b⟩ := p
      by_cases h1 : a = k
      · subst h1
        have hb : b = v := by simpa [lookupStr] using h
        simp [insertStr, hb]
      · have h2 : lookupStr rest k = some v := by simpa [lookupStr, h1] using h
        simp [insertStr, lookupStr, h1, ih h2]

/-- C9: immediately after `expose_tool r s t` — also when `s` had no
prior entry, in which case one is created — `is_exposed` is true and
`list_exposed s` contains `t`; immediately after `hide_tool r s t`,
`is_exposed` is false; and `hide_tool` is a no-op when `t` was not
exposed on `s`. -/
theorem expose_hide_tool_spec (r : RegistryMap) (s t : String) :
    is_exposed (expose_tool r s t) s t = true ∧
    memb (list_exposed (expose_tool r s t) s) t = true ∧
    is_exposed (hide_tool r s t) s t = false ∧
    (is_exposed r s t = false → hide_tool r s t = r) := by
  refine ⟨?_, ?_, ?_, ?_⟩
  · simp [is_exposed, expose_tool, lookupStr_insertStr_self, memb_add_self]
  · simp [list_exposed, expose_tool, lookupStr_insertStr_self, memb_add_self]
  · unfold hide_tool
    cases h : lookupStr r s with
    | none => simp [is_exposed, h, memb]
    | some set => simp [is_exposed, lookupStr_insertStr_self, memb_discard_self]
  · intro h
    cases hs : lookupStr r s with
    | none => simp [hide_tool, hs]
    | some set =>
        have hmem : memb set t = false := by simpa [is_exposed, hs] using h
        simp [hide_tool, hs, discard_of_not_memb set t hmem,
              insertStr_lookup_self r s set hs]

/-- Witness for C9 at a concrete registry: exposing `read` on `files`
makes it exposed, and hiding a tool that was never exposed leaves the
empty registry unchanged. -/
theorem expose_hide_tool_spec_witness :
    is_exposed (expose_tool [] "files" "read") "files" "read" = true ∧
    hide_tool [] "files" "read" = [] :=
  ⟨(expose_hide_tool_spec [] "files" "read").1,
   (expose_hide_tool_spec [] "files" "read").2.2.2 rfl⟩

/-- C10 (frame property): `expose_tool`/`hide_tool` on `(s, t)` leave
the visibility entry recorded for every other server `s'` untouched,
and leave the exposure of every other tool `t'` on `s` itself
unchanged. -/
theorem expose_hide_tool_frame (r : RegistryMap) (s s' t t' : String) :
    (s' ≠ s → lookupStr (expose_tool r s t) s' = lookupStr r s' ∧
              lookupStr (hide_tool r s t) s' = lookupStr r s') ∧
    (t' ≠ t → is_exposed (expose_tool r s t) s t' = is_exposed r s t' ∧
              is_exposed (hide_tool r s t) s t' = is_exposed r s t') := by
  constructor
  · intro h
    constructor
    · simp [expose_tool, lookupStr_insertStr_ne r s s' _ h]
    · unfold hide_tool
      cases hs : lookupStr r s with
      | none => rfl
      | some set => simp [lookupStr_insertStr_ne r s s' _ h]
  · intro h
    constructor
    · simp [is_exposed, expose_tool, lookupStr_insertStr_self,
            memb_add_ne _ t t' h]
    · unfold hide_tool
      cases hs : lookupStr r s with
      | none => rfl
      | some set =>
          simp [is_exposed, lookupStr_insertStr_self, hs, memb_discard_ne set t t' h]

/-- Witness for C10: exposing `y` on server `b` does not change server
`a`'s entry, and hiding `y` on `a` does not change whether `x` is
exposed on `a`. -/
theorem expose_hide_tool_frame_witness :
    lookupStr (expose_tool [("a", ["x"])] "b" "y") "a" = lookupStr [("a", ["x"])] "a" ∧
    is_exposed (hide_tool [("a", ["x"])] "a" "y") "a" "x" = is_exposed [("a", ["x"])] "a" "x" :=
  ⟨((expose_hide_tool_frame [("a", ["x"])] "b" "a" "y" "z").1 (by decide)).1,
   ((expose_hide_tool_frame [("a", ["x"])] "a" "b" "y" "x").2 (by decide)).2⟩

theorem lookupStr_initialize_not_mem :
    ∀ (servers : List (String × Server)) (r : RegistryMap) (n : String),
      n ∉ servers.map Prod.fst →
      lookupStr (initialize_from_servers r servers) n = lookupStr r n := by
  intro servers
  induction servers with
  | nil => intro r n _; rfl
  | cons p rest ih =>
      intro r n h
      obtain ⟨k, srv⟩ := p
      simp only [List.map_cons, List.mem_cons, not_or] at h
      simp only [initialize_from_servers]
      rw [ih _ n h.2, lookupStr_insertStr_ne r k n _ h.1]

theorem lookupStr_initialize_mem :
    ∀ (servers : List (String × Server)) (r : RegistryMap) (n : String) (srv : Server),
      (servers.map Prod.fst).Nodup → (n, srv) ∈ servers →
      lookupStr (initialize_from_servers r servers) n =
        some (setFromList (((srv.tools.getD []).take 3).map Tool.name)) := by
  intro servers
  induction servers with
  | nil => intro r n srv _ hmem; cases hmem
  | cons p rest ih =>
      intro r n srv hnd hmem
      obtain ⟨k, v⟩ := p
      simp only [List.map_cons, List.nodup_cons] at hnd
      rcases List.mem_cons.mp hmem with heq | htl
      · injection heq with h1 h2
        subst h1
        subst h2
        simp only [initialize_from_servers]
        rw [lookupStr_initialize_not_mem rest _ n hnd.1, lookupStr_insertStr_self]
      · simp only [initialize_from_servers]
        exact ih _ n srv hnd.2 htl

theorem initialize_from_servers_idem :
    ∀ (servers : List (String × Server)) (r : RegistryMap),
      (servers.map Prod.fst).Nodup →
      initialize_from_servers (initialize_from_servers r servers) servers =
        initialize_from_servers r servers := by
  intro servers
  induction servers with
  | nil => intro r _; rfl
  | cons p rest ih =>
      intro r hnd
      obtain ⟨k, v⟩ := p
      simp only [List.map_cons, List.nodup_cons] at hnd
      simp only [initialize_from_servers]
      have hfind :
          lookupStr
            (initialize_from_servers
              (insertStr r k (setFromList (((v.tools.getD []).take 3).map Tool.name))) rest) k =
            some (setFromList (((v.tools.getD []).take 3).map Tool.name)) := by
        rw [lookupStr_initialize_not_mem rest _ k hnd.1, lookupStr_insertStr_self]
      rw [insertStr_lookup_self _ k _ hfind]
      exact ih _ hnd.2

/-- A concrete four-tool server used to exercise registry
initialization. -/
def demoServer : Server :=
  { name := "s", config := { command := some "cmd" },
    tools := some [⟨"a"⟩, ⟨"b"⟩, ⟨"c"⟩, ⟨"d"⟩] }

/-- C8 counterexample: the claim fails on the code in two ways.  The
initial-visibility policy is hardwired to "first 3" (`K = 3` in
`initialize_from_servers`), so for a server with tools `[a,b,c,d]` the
exposed set is `{a,b,c}` — no "first-2" policy can be supplied and
`is_exposed (server, "c")` is `true`.  And re-initialization does not
fully replace the stored registry state: an entry created by
`expose_tool` for a server absent from the argument survives the call
(per-server replace, i.e. a merge). -/
theorem initialize_from_servers_counterexample :
    list_exposed (initialize_from_servers [] [("s", demoServer)]) "s" = ["a", "b", "c"] ∧
    is_exposed (initialize_from_servers [] [("s", demoServer)]) "s" "c" = true ∧
    is_exposed (initialize_from_servers (expose_tool [] "x" "t") []) "x" "t" = true := by
  refine ⟨rfl, rfl, rfl⟩

/-- C8 amended: `initialize_from_servers` applies the fixed "first 3"
policy to each server's tool list and stores the resulting set; servers
absent from the argument keep their previous entry (per-server replace,
not a full replace of the registry state); and when the argument's
server names are distinct (as they are for a Python dict), calling it a
second time with the same argument is idempotent. -/
theorem initialize_from_servers_spec (r : RegistryMap) (servers : List (String × Server))
    (hnd : (servers.map Prod.fst).Nodup) :
    (∀ n, n ∉ servers.map Prod.fst →
        lookupStr (initialize_from_servers r servers) n = lookupStr r n) ∧
    (∀ n srv, (n, srv) ∈ servers →
        list_exposed (initialize_from_servers r servers) n =
          setFromList (((srv.tools.getD []).take 3).map Tool.name)) ∧
    initialize_from_servers (initialize_from_servers r servers) servers =
      initialize_from_servers r servers := by
  refine ⟨fun n h => lookupStr_initialize_not_mem servers r n h, fun n srv h => ?_,
          initialize_from_servers_idem servers r hnd⟩
  unfold list_exposed
  rw [lookupStr_initialize_mem servers r n srv hnd h]
  rfl

/-- Witness for C8 (amended) at a concrete catalog: the four-tool demo
server gets its first three tools exposed, and a stale entry for a
server not in the catalog is kept unchanged. -/
theorem initialize_from_servers_spec_witness :
    list_exposed (initialize_from_servers [("x", ["t"])] [("s", demoServer)]) "s" =
      setFromList (((demoServer.tools.getD []).take 3).map Tool.name) ∧
    lookupStr (initialize_from_servers [("x", ["t"])] [("s", demoServer)]) "x" =
      lookupStr [("x", ["t"])] "x" :=
  ⟨(initialize_from_servers_spec [("x", ["t"])] [("s", demoServer)] (by decide)).2.1
      "s" demoServer (List.mem_singleton.mpr rfl),
   (initialize_from_servers_spec [("x", ["t"])] [("s", demoServer)] (by decide)).1
      "x" (by decide)⟩

/-- One candidate of `ToolMatcher.match`'s `matched_tools` list (only
the fields the gateway reads are modelled). -/
structure MatchedTool where
  server_name : String
  tool_name : String
deriving DecidableEq, Repr

/-- The dictionary returned by `ToolMatcher.match(query)`. -/
structure MatchResult where
  success : Bool
  matched_tools : List MatchedTool
deriving DecidableEq, Repr

/-- `Router.route` (router.py lines 128-130): it delegates to
`self.matcher.match(query)` and returns that result unchanged — no
registry filtering and no visible/hidden partition is performed.  The
external `ToolMatcher` is passed as a function parameter. -/
def route (matcher : String → MatchResult) (query : String) : MatchResult :=
  matcher query

/-- `types.TextContent`: only the `text` field is read here. -/
structure TextContent where
  text : String
deriving DecidableEq, Repr

/-- `types.CallToolResult` as used by `Router.call_tool`. -/
structure CallToolResult where
  isError : Bool
  content : List TextContent
deriving DecidableEq, Repr

/-- Observable lock/connection events of one `Router.call_tool`
invocation, in the order they happen. -/
inductive CEvent
  | lockAcquire
  | lockRelease
  | connOpen
  | connClose
  | invokeTool
deriving DecidableEq, Repr

/-- The behaviour of the external `MCPConnection.call_tool` under
`asyncio.wait_for`: the remote invoke returns a result within the
timeout, exceeds the timeout (`asyncio.TimeoutError`), or raises some
other exception (propagated uncaught). -/
inductive InvokeBehavior
  | returns (result : CallToolResult)
  | timesOut
  | raises (msg : String)
deriving DecidableEq, Repr

/-- `Router.call_tool` (router.py lines 132-162).  The whole body runs
under `async with self.connection_lock`.  It looks the server up in
`self.servers`; an unknown server raises
`ValueError(f"Server '{server_name}' is not defined in the configuration.")`
(modelled as `Except.error`) while the `async with` blocks release the
lock on unwind.  Otherwise `async with MCPConnection(server_config)`
opens a connection, `asyncio.wait_for(connection.call_tool(...),
timeout)` invokes the tool, and on `asyncio.TimeoutError` the function
returns an `isError` result whose text is
`f"Tool {tool_name} in {server_name} call timed out."`; the connection
is closed by the `async with` exit before the lock is released.  The
function also returns the ordered event trace of the call.  `params`
and `timeout` are carried for signature fidelity; wall-clock elapse of
the invoke step is abstracted into `behavior`.  There is no visibility
check anywhere in the body. -/
def call_tool (servers : List (String × Server)) (behavior : InvokeBehavior)
    (server_name tool_name : String)
    (params : Option (List (String × String)) := none) (timeout : Nat := 300) :
    Except String CallToolResult × List CEvent :=
  match lookupStr servers server_name with
  | none =>
      (Except.error ("Server '" ++ server_name ++ "' is not defined in the configuration."),
       [CEvent.lockAcquire, CEvent.lockRelease])
  | some _ =>
      match behavior with
      | InvokeBehavior.returns result =>
          (Except.ok result,
           [CEvent.lockAcquire, CEvent.connOpen, CEvent.invokeTool,
            CEvent.connClose, CEvent.lockRelease])
      | InvokeBehavior.timesOut =>
          (Except.ok
            { isError := true,
              content :=
                [{ text := "Tool " ++ tool_name ++ " in " ++ server_name ++
                     " call timed out." }] },
           [CEvent.lockAcquire, CEvent.connOpen, CEvent.invokeTool,
            CEvent.connClose, CEvent.lockRelease])
      | InvokeBehavior.raises msg =>
          (Except.error msg,
           [CEvent.lockAcquire, CEvent.connOpen, CEvent.invokeTool,
            CEvent.connClose, CEvent.lockRelease])

/-- The parsed catalog document (`self.config`): the `mcpServers`
mapping from server name to raw connection configuration. -/
structure CatalogDict where
  mcpServers : List (String × ServerConfig)
deriving DecidableEq, Repr

/-- The `config` argument of `Router.__init__`: a dict, a `Path` (with
its on-disk existence and, when it exists, the parse result —
`none` models a file `json.load` fails on), or any other value. -/
inductive ConfigArg
  | dict (d : CatalogDict)
  | path (existsOnDisk : Bool) (parsed : Option CatalogDict)
  | otherType
deriving Repr

/-- The environment-derived settings `Router.__init__` reads: the
matching-backend API key, the optional matcher data path and its
default, and the filesystem's answer to `os.path.exists`. -/
structure InitEnv where
  embedding_api_key : Option String
  mcp_data_path : Option String
  default_data_path : String
  path_exists : String → Bool

/-- The state a successfully constructed `Router` holds (the parts this
development reasons about). -/
structure RouterState where
  servers : List (String × Server)
  data_path : String
deriving DecidableEq, Repr

/-- The loop of `Router.__init__` (router.py lines 96-97): builds
`Server(name=name, config=ServerConfig(**config_data))` for each
catalog entry; a pydantic validation error aborts construction. -/
def build_servers : List (String × ServerConfig) → Except String (List (String × Server))
  | [] => Except.ok []
  | (name, data) :: rest =>
      match check_command_or_url data with
      | Except.error e => Except.error e
      | Except.ok cfg =>
          match build_servers rest with
          | Except.error e => Except.error e
          | Except.ok tl => Except.ok ((name, { name := name, config := cfg }) :: tl)

/-- `Router.__init__` (router.py lines 77-126).  A dict argument is
used directly; a `Path` that exists is parsed (`json.load` failure
propagates), a `Path` that does not exist only logs a warning and
continues with `{"mcpServers": {}}`; any other argument raises.  Then
the servers are built (validation failures propagate), and finally the
API-key and data-path checks run: a falsy `EMBEDDING_API_KEY` raises,
and a falsy or non-existent resolved `MCP_DATA_PATH` (environment value
or the default) raises.  The external `ToolMatcher` construction is not
modelled. -/
def router_init (config : ConfigArg) (env : InitEnv) : Except String RouterState :=
  match
    (match config with
     | ConfigArg.dict d => Except.ok d
     | ConfigArg.path existsOnDisk parsed =>
         if existsOnDisk then
           match parsed with
           | some d => Except.ok d
           | none => Except.error "catalog file exists but json.load failed"
         else
           Except.ok { mcpServers := [] }
     | ConfigArg.otherType =>
         Except.error "Config must be a dictionary or a Path to a JSON file.") with
  | Except.error e => Except.error e
  | Except.ok d =>
      match build_servers d.mcpServers with
      | Except.error e => Except.error e
      | Except.ok servers =>
          if truthy env.embedding_api_key = false then
            Except.error "EMBEDDING_API_KEY environment variable not set."
          else if (env.mcp_data_path.getD env.default_data_path).isEmpty
              || !env.path_exists (env.mcp_data_path.getD env.default_data_path) then
            Except.error ("MCP_DATA_PATH not set or file not found at: "
              ++ env.mcp_data_path.getD env.default_data_path)
          else
            Except.ok { servers := servers,
                        data_path := env.mcp_data_path.getD env.default_data_path }

/-- C7 counterexample: a descriptor carrying BOTH connection forms — a
launchable command and a network endpoint URL — passes
`check_command_or_url` unchanged instead of being rejected: the
validator only raises when both are absent. -/
theorem check_command_or_url_accepts_both :
    check_command_or_url
        { command := some "npx", args := ["server"], env := [],
          url := some "http://localhost:8080", headers := [] } =
      Except.ok
        { command := some "npx", args := ["server"], env := [],
          url := some "http://localhost:8080", headers := [] } := rfl

/-- C7 amended: `check_command_or_url` fails exactly when neither
connection form is present (both `command` and `url` absent or empty);
any descriptor with at least one form — including one with both —
passes validation unchanged, and through `build_servers` a failing
descriptor aborts catalog loading. -/
theorem check_command_or_url_spec (c : ServerConfig) :
    (check_command_or_url c = Except.error "Either 'command' or 'url' must be provided" ↔
      truthy c.command = false ∧ truthy c.url = false) ∧
    (truthy c.command = true ∨ truthy c.url = true → check_command_or_url c = Except.ok c) ∧
    (∀ name rest, truthy c.command = false → truthy c.url = false →
      build_servers ((name, c) :: rest) =
        Except.error "Either 'command' or 'url' must be provided") := by
  refine ⟨?_, ?_, ?_⟩
  · constructor
    · intro h
      by_cases hc : truthy c.command
      · simp [check_command_or_url, hc] at h
      · by_cases hu : truthy c.url
        · simp [check_command_or_url, hc, hu] at h
        · exact ⟨by simpa using hc, by simpa using hu⟩
    · intro ⟨hc, hu⟩
      simp [check_command_or_url, hc, hu]
  · intro h
    rcases h with hc | hu
    · simp [check_command_or_url, hc]
    · simp [check_command_or_url, hu]
  · intro name rest hc hu
    simp [build_servers, check_command_or_url, hc, hu]

/-- Witness for C7 (amended): a descriptor with neither form is
rejected with the validator's message, and one with only a URL is
accepted. -/
theorem check_command_or_url_spec_witness :
    check_command_or_url { command := none, url := none } =
      Except.error "Either 'command' or 'url' must be provided" ∧
    check_command_or_url { command := none, url := some "http://x" } =
      Except.ok { command := none, url := some "http://x" } :=
  ⟨(check_command_or_url_spec { command := none, url := none }).1.mpr ⟨rfl, rfl⟩,
   (check_command_or_url_spec { command := none, url := some "http://x" }).2.1 (Or.inr rfl)⟩

/-- C6 counterexample: an ABSENT catalog document is not startup-fatal.
With the matching-backend key present and the matcher data path
readable, `Router.__init__` on a non-existent config path only logs a
warning and constructs the router with an empty server list. -/
theorem router_init_absent_catalog_not_fatal :
    router_init (ConfigArg.path false none)
        { embedding_api_key := some "key", mcp_data_path := some "/data.json",
          default_data_path := "/default.json", path_exists := fun _ => true } =
      Except.ok { servers := [], data_path := "/data.json" } := rfl

theorem build_servers_error_of_mem :
    ∀ (l : List (String × ServerConfig)) (name : String) (c : ServerConfig),
      (name, c) ∈ l → truthy c.command = false → truthy c.url = false →
      ∃ e, build_servers l = Except.error e := by
  intro l
  induction l with
  | nil => intro name c hmem _ _; cases hmem
  | cons p rest ih =>
      intro name c hmem hc hu
      obtain ⟨pn, pc⟩ := p
      rcases List.mem_cons.mp hmem with heq | htl
      · injection heq with h1 h2
        subst h2
        refine ⟨"Either 'command' or 'url' must be provided", ?_⟩
        simp [build_servers, check_command_or_url, hc, hu]
      · obtain ⟨e, he⟩ := ih name c htl hc hu
        cases hcc : check_command_or_url pc with
        | error e2 => exact ⟨e2, by simp [build_servers, hcc]⟩
        | ok cfg => exact ⟨e, by simp [build_servers, hcc, he]⟩

theorem router_init_ok_checks (config : ConfigArg) (env : InitEnv) (st : RouterState)
    (h : router_init config env = Except.ok st) :
    truthy env.embedding_api_key = true ∧
    (env.mcp_data_path.getD env.default_data_path).isEmpty = false ∧
    env.path_exists (env.mcp_data_path.getD env.default_data_path) = true := by
  unfold router_init at h
  split at h
  · simp at h
  · split at h
    · simp at h
    · split at h
      · simp at h
      · split at h
        · simp at h
        · rename_i hk hdp
          have hk2 : truthy env.embedding_api_key = true := by
            simpa using hk
          have hdp2 : (env.mcp_data_path.getD env.default_data_path).isEmpty = false ∧
              env.path_exists (env.mcp_data_path.getD env.default_data_path) = true := by
            simpa using hdp
          exact ⟨hk2, hdp2.1, hdp2.2⟩

/-- C6 amended: a missing matching-backend API key, a missing or
unreadable matcher data path, an unreadable (existing but unparseable)
catalog document, and a malformed server descriptor are each
startup-fatal — `router_init` returns an error; but an ABSENT catalog
document is not: with the other settings healthy, construction succeeds
with an empty server list. -/
theorem router_init_spec (config : ConfigArg) (env : InitEnv) :
    (truthy env.embedding_api_key = false →
        ∃ e, router_init config env = Except.error e) ∧
    (env.path_exists (env.mcp_data_path.getD env.default_data_path) = false →
        ∃ e, router_init config env = Except.error e) ∧
    (config = ConfigArg.path true none →
        ∃ e, router_init config env = Except.error e) ∧
    (∀ d name c, config = ConfigArg.dict d → (name, c) ∈ d.mcpServers →
        truthy c.command = false → truthy c.url = false →
        ∃ e, router_init config env = Except.error e) ∧
    (truthy env.embedding_api_key = true →
        (env.mcp_data_path.getD env.default_data_path).isEmpty = false →
        env.path_exists (env.mcp_data_path.getD env.default_data_path) = true →
        router_init (ConfigArg.path false none) env =
          Except.ok { servers := [],
                      data_path := env.mcp_data_path.getD env.default_data_path }) := by
  refine ⟨?_, ?_, ?_, ?_, ?_⟩
  · intro h
    cases hr : router_init config env with
    | error e => exact ⟨e, rfl⟩
    | ok st =>
        have h1 := (router_init_ok_checks config env st hr).1
        rw [h] at h1
        simp at h1
  · intro h
    cases hr : router_init config env with
    | error e => exact ⟨e, rfl⟩
    | ok st =>
        have h1 := (router_init_ok_checks config env st hr).2.2
        rw [h] at h1
        simp at h1
  · rintro rfl
    exact ⟨"catalog file exists but json.load failed", rfl⟩
  · rintro d name c rfl hmem hc hu
    obtain ⟨e, he⟩ := build_servers_error_of_mem d.mcpServers name c hmem hc hu
    exact ⟨e, by simp [router_init, he]⟩
  · intro hk hne hex
    simp [router_init, build_servers, hk, hne, hex]

/-- Witness for C6 (amended): with the API key unset, constructing the
router from an in-memory catalog fails; and the absent-catalog success
case of the theorem matches the counterexample configuration. -/
theorem router_init_spec_witness :
    (∃ e, router_init (ConfigArg.dict { mcpServers := [] })
        { embedding_api_key := none, mcp_data_path := some "/data.json",
          default_data_path := "/default.json", path_exists := fun _ => true } =
        Except.error e) ∧
    router_init (ConfigArg.path false none)
        { embedding_api_key := some "key", mcp_data_path := some "/data.json",
          default_data_path := "/default.json", path_exists := fun _ => true } =
      Except.ok { servers := [], data_path := "/data.json" } :=
  ⟨(router_init_spec (ConfigArg.dict { mcpServers := [] })
      { embedding_api_key := none, mcp_data_path := some "/data.json",
        default_data_path := "/default.json", path_exists := fun _ => true }).1 rfl,
   (router_init_spec (ConfigArg.path false none)
      { embedding_api_key := some "key", mcp_data_path := some "/data.json",
        default_data_path := "/default.json", path_exists := fun _ => true }).2.2.2.2
     rfl rfl rfl⟩

/-- C5: when the remote invoke step exceeds the timeout
(`asyncio.TimeoutError` raised by `asyncio.wait_for`), `call_tool` on a
catalogued server returns a `CallToolResult` with `isError := true`
whose message names the tool, the server and the fact that it timed
out; the trace shows the connection is opened before the invoke begins
(the timeout bounds only the invoke step, not connection acquisition)
and is closed exactly once, before the dispatch lock is released. -/
theorem call_tool_timeout_spec (servers : List (String × Server)) (sn tn : String)
    (params : Option (List (String × String))) (timeout : Nat)
    (h : lookupStr servers sn ≠ none) :
    (call_tool servers InvokeBehavior.timesOut sn tn params timeout).1 =
      Except.ok { isError := true,
                  content := [{ text := "Tool " ++ tn ++ " in " ++ sn ++
                    " call timed out." }] } ∧
    (call_tool servers InvokeBehavior.timesOut sn tn params timeout).2 =
      [CEvent.lockAcquire, CEvent.connOpen, CEvent.invokeTool,
       CEvent.connClose, CEvent.lockRelease] ∧
    (call_tool servers InvokeBehavior.timesOut sn tn params timeout).2.count
        CEvent.connClose = 1 ∧
    (call_tool servers InvokeBehavior.timesOut sn tn params timeout).2.indexOf
        CEvent.connClose <
      (call_tool servers InvokeBehavior.timesOut sn tn params timeout).2.indexOf
        CEvent.lockRelease := by
  cases hv : lookupStr servers sn with
  | none => exact absurd hv h
  | some v =>
      refine ⟨?_, ?_, ?_, ?_⟩
      · simp only [call_tool, hv]
      · simp only [call_tool, hv]
      · simp only [call_tool, hv]
        decide
      · simp only [call_tool, hv]
        decide

/-- Witness for C5 at a concrete one-server catalog. -/
theorem call_tool_timeout_spec_witness :
    (call_tool [("files", { name := "files", config := { command := some "cmd" } })]
        InvokeBehavior.timesOut "files" "read" none 300).1 =
      Except.ok { isError := true,
                  content := [{ text := "Tool " ++ "read" ++ " in " ++ "files" ++
                    " call timed out." }] } :=
  (call_tool_timeout_spec
      [("files", { name := "files", config := { command := some "cmd" } })]
      "files" "read" none 300 (by decide)).1

/-- C3 counterexample: `call_tool` on a server absent from the catalog
does NOT return a well-formed `CallOutcome` with `isError: true`: it
raises `ValueError(f"Server '{server_name}' is not defined in the
configuration.")` — an uncaught fault to the caller, modelled as
`Except.error`. -/
theorem call_tool_unknown_server_raises :
    (call_tool [] (InvokeBehavior.returns { isError := false, content := [] })
        "ghost-server" "anything" none 300).1 =
      Except.error "Server 'ghost-server' is not defined in the configuration." := rfl

/-- C3 amended: for every server name absent from the catalog,
`call_tool` fails by raising a `ValueError` whose message names the
server as not defined in the configuration (a message distinct from any
visibility-denied error), propagated to the caller rather than returned
as a `CallOutcome`; no connection is opened, and the dispatch lock is
still released on the unwind. -/
theorem call_tool_unknown_server_spec (servers : List (String × Server))
    (behavior : InvokeBehavior) (sn tn : String)
    (params : Option (List (String × String))) (timeout : Nat)
    (h : lookupStr servers sn = none) :
    call_tool servers behavior sn tn params timeout =
      (Except.error ("Server '" ++ sn ++ "' is not defined in the configuration."),
       [CEvent.lockAcquire, CEvent.lockRelease]) ∧
    (call_tool servers behavior sn tn params timeout).2.contains CEvent.connOpen = false := by
  constructor
  · simp only [call_tool, h]
  · simp only [call_tool, h]
    decide

/-- Witness for C3 (amended) on the empty catalog. -/
theorem call_tool_unknown_server_spec_witness :
    call_tool [] (InvokeBehavior.returns { isError := false, content := [] })
        "ghost" "t" none 300 =
      (Except.error ("Server '" ++ "ghost" ++ "' is not defined in the configuration."),
       [CEvent.lockAcquire, CEvent.lockRelease]) :=
  (call_tool_unknown_server_spec []
      (InvokeBehavior.returns { isError := false, content := [] }) "ghost" "t"
      none 300 rfl).1

/-- C1 (the code at the failing input): the registry hides `delete` on
`files` (nothing is exposed in the empty registry), yet `call_tool` —
whose body contains no visibility check and consults no registry —
still opens a connection to `files`, invokes the tool and returns the
remote result, instead of returning `isError: true` with a "not
exposed" message and no connection. -/
theorem call_tool_ignores_visibility :
    is_exposed [] "files" "delete" = false ∧
    (call_tool [("files", { name := "files", config := { command := some "cmd" } })]
        (InvokeBehavior.returns { isError := false, content := [{ text := "deleted" }] })
        "files" "delete" none 300).2.contains CEvent.connOpen = true ∧
    (call_tool [("files", { name := "files", config := { command := some "cmd" } })]
        (InvokeBehavior.returns { isError := false, content := [{ text := "deleted" }] })
        "files" "delete" none 300).1 =
      Except.ok { isError := false, content := [{ text := "deleted" }] } :=
  ⟨rfl, by decide, rfl⟩

/-- C2 (the code at the failing input): `route` returns the matcher's
result unchanged for every matcher and query — it performs no
partition.  At a concrete query whose single candidate is hidden by
the registry, the candidate is still present, unflagged, in the raw
`matched_tools` list of the result; no `visible`/`hidden` fields
exist. -/
theorem route_no_partition :
    (∀ (matcher : String → MatchResult) (query : String),
        route matcher query = matcher query) ∧
    is_exposed [] "files" "delete" = false ∧
    (route
        (fun _ =>
          { success := true,
            matched_tools := [{ server_name := "files", tool_name := "delete" }] })
        "open a document").matched_tools =
      [{ server_name := "files", tool_name := "delete" }] :=
  ⟨fun _ _ => rfl, rfl, rfl⟩

/-- The phases one `call_tool` invocation passes through.  The whole
body of `call_tool` runs inside `async with self.connection_lock`
(router.py line 140): the task acquires the lock, then (on a known
server) enters `async with MCPConnection(...)` — the connect → invoke
→ close window — closes the connection on that block's exit, and
releases the lock when the outer block exits. -/
inductive Phase
  | start
  | locked
  | connected
  | closedConn
  | released
deriving DecidableEq, Repr

/-- A system of `n` interleaved `call_tool` invocations sharing the one
process-wide `asyncio.Lock` stored in `self.connection_lock`. -/
structure DispatchSys (n : Nat) where
  phase : Fin n → Phase
  lockHolder : Option (Fin n)

/-- All tasks about to call, nobody holds the lock. -/
def initSys (n : Nat) : DispatchSys n :=
  { phase := fun _ => Phase.start, lockHolder := none }

/-- Interleaving semantics of `call_tool` under `asyncio.Lock`:
`acquire` succeeds only when no task holds the lock; `connect`
(entering `async with MCPConnection`), `close` (its exit) and the final
`release` are steps of the current lock holder; `lookupFail` is the
unknown-server `ValueError` path, which unwinds — releasing the lock —
without ever connecting.  Timeout and remote errors take the same
`close`-then-`release` path as success. -/
inductive DispatchStep {n : Nat} : DispatchSys n → DispatchSys n → Prop
  | acquire (s : DispatchSys n) (i : Fin n) :
      s.phase i = Phase.start → s.lockHolder = none →
      DispatchStep s
        { phase := Function.update s.phase i Phase.locked, lockHolder := some i }
  | connect (s : DispatchSys n) (i : Fin n) :
      s.phase i = Phase.locked → s.lockHolder = some i →
      DispatchStep s
        { phase := Function.update s.phase i Phase.connected, lockHolder := some i }
  | close (s : DispatchSys n) (i : Fin n) :
      s.phase i = Phase.connected → s.lockHolder = some i →
      DispatchStep s
        { phase := Function.update s.phase i Phase.closedConn, lockHolder := some i }
  | lookupFail (s : DispatchSys n) (i : Fin n) :
      s.phase i = Phase.locked → s.lockHolder = some i →
      DispatchStep s
        { phase := Function.update s.phase i Phase.released, lockHolder := none }
  | release (s : DispatchSys n) (i : Fin n) :
      s.phase i = Phase.closedConn → s.lockHolder = some i →
      DispatchStep s
        { phase := Function.update s.phase i Phase.released, lockHolder := none }

/-- The states a system of `n` concurrent invocations can reach from
the initial state. -/
def Reachable (n : Nat) (s : DispatchSys n) : Prop :=
  Relation.ReflTransGen DispatchStep (initSys n) s

/-- Whether a phase is inside the lock-guarded critical section (from
successful acquisition until release). -/
def inCritical : Phase → Bool
  | Phase.locked => true
  | Phase.connected => true
  | Phase.closedConn => true
  | _ => false

/-- The lock invariant: every task inside the critical section is the
recorded lock holder. -/
def LockInv {n : Nat} (s : DispatchSys n) : Prop :=
  ∀ i, inCritical (s.phase i) = true → s.lockHolder = some i

theorem lockInv_init (n : Nat) : LockInv (initSys n) := by
  intro i h
  simp [initSys, inCritical] at h

theorem lockInv_step {n : Nat} {s s' : DispatchSys n}
    (hstep : DispatchStep s s') (hinv : LockInv s) : LockInv s' := by
  cases hstep with
  | acquire i hp hl =>
      intro j hj
      by_cases hij : j = i
      · subst hij
        rfl
      · have hcrit : inCritical (s.phase j) = true := by
          simpa [Function.update, hij] using hj
        have h2 := hinv j hcrit
        rw [hl] at h2
        exact Option.noConfusion h2
  | connect i hp hl =>
      intro j hj
      by_cases hij : j = i
      · subst hij
        rfl
      · have hcrit : inCritical (s.phase j) = true := by
          simpa [Function.update, hij] using hj
        have h2 := hinv j hcrit
        rw [hl] at h2
        exact h2
  | close i hp hl =>
      intro j hj
      by_cases hij : j = i
      · subst hij
        rfl
      · have hcrit : inCritical (s.phase j) = true := by
          simpa [Function.update, hij] using hj
        have h2 := hinv j hcrit
        rw [hl] at h2
        exact h2
  | lookupFail i hp hl =>
      intro j hj
      by_cases hij : j = i
      · subst hij
        simp [Function.update, inCritical] at hj
      · have hcrit : inCritical (s.phase j) = true := by
          simpa [Function.update, hij] using hj
        have h2 := hinv j hcrit
        rw [hl] at h2
        injection h2 with h3
        exact absurd h3.symm hij
  | release i hp hl =>
      intro j hj
      by_cases hij : j = i
      · subst hij
        simp [Function.update, inCritical] at hj
      · have hcrit : inCritical (s.phase j) = true := by
          simpa [Function.update, hij] using hj
        have h2 := hinv j hcrit
        rw [hl] at h2
        injection h2 with h3
        exact absurd h3.symm hij

theorem lockInv_reachable {n : Nat} {s : DispatchSys n} (h : Reachable n s) :
    LockInv s := by
  induction h with
  | refl => exact lockInv_init n
  | tail _ hstep ih => exact lockInv_step hstep ih

/-- C4: in every reachable interleaving of any number of concurrent
`call_tool` invocations, a task with an open connection holds the
process-wide dispatch lock (acquired before connection acquisition and
released only after closure), at most one task is inside the
connect→invoke→close critical section at any time, and in particular no
two connections are simultaneously open. -/
theorem dispatch_mutual_exclusion (n : Nat) (s : DispatchSys n) (h : Reachable n s) :
    (∀ i, s.phase i = Phase.connected → s.lockHolder = some i) ∧
    (∀ i j, inCritical (s.phase i) = true → inCritical (s.phase j) = true → i = j) ∧
    (∀ i j, s.phase i = Phase.connected → s.phase j = Phase.connected → i = j) := by
  have hinv := lockInv_reachable h
  have hmut : ∀ i j, inCritical (s.phase i) = true → inCritical (s.phase j) = true →
      i = j := by
    intro i j hi hj
    have h1 := hinv i hi
    have h2 := hinv j hj
    rw [h1] at h2
    exact Option.some.inj h2
  refine ⟨?_, hmut, ?_⟩
  · intro i hi
    exact hinv i (by rw [hi]; rfl)
  · intro i j hi hj
    exact hmut i j (by rw [hi]; rfl) (by rw [hj]; rfl)

/-- Witness for C4: a concrete reachable two-task state (task 0 has
acquired the lock and opened its connection); the theorem yields that
task 0 is the lock holder. -/
theorem dispatch_mutual_exclusion_witness :
    (DispatchSys.mk
        (Function.update
          (Function.update (fun _ => Phase.start) (0 : Fin 2) Phase.locked)
          (0 : Fin 2) Phase.connected)
        (some (0 : Fin 2))).lockHolder = some (0 : Fin 2) :=
  (dispatch_mutual_exclusion 2 _
      (Relation.ReflTransGen.tail
        (Relation.ReflTransGen.tail Relation.ReflTransGen.refl
          (DispatchStep.acquire (initSys 2) 0 rfl rfl))
        (DispatchStep.connect _ 0 (by simp [initSys, Function.update]) rfl))).1
    0 (by simp [Function.update])
